import Mathlib

/-!
# Verification of the lasersell chrome-extension telemetry client and poll loop

Shallow embedding of the code under `src/lib/telemetry.ts`, `src/lib/storage.ts`
and the side-panel poll loop of `src/sidepanel/SidePanelApp.tsx`.

Conventions used throughout:
* JavaScript strings are Lean `String`s; `null`/`undefined` (and absent object
  keys) are modelled with `Option`.
* `Date.parse` is an external JS primitive; every definition that needs it is
  parameterised by `dateParse : String → Option Int` (`none` models `NaN`).
  A concrete executable fragment of `Date.parse` restricted to strict
  `"YYYY-MM-DDTHH:MM:SSZ"` strings, `isoParseMs`, is provided for evaluating
  statements on concrete inputs.
* `Date.now()` / `new Date().toISOString()` are ambient clock reads and are
  passed in as explicit arguments where the code reads them.
* Machine numbers that the code computes with are integers (HTTP statuses,
  millisecond delays); they are modelled with `Nat`/`Int` directly, no
  overflow is possible at these magnitudes in IEEE doubles.
-/

namespace LaserSell

/-! ## JS primitives -/

/-- Value of a decimal digit character. -/
def digitVal (c : Char) : Option Nat :=
  if c.isDigit then some (c.toNat - 48) else none

/-- `Number.parseInt(s, 10)` on an already-trimmed string: an optional sign
followed by the longest (possibly improper) digit prefix; `none` models `NaN`
(no digits at all). Trailing garbage is ignored, as in JS. -/
def jsParseIntDec (s : String) : Option Int :=
  let core : List Char → Bool → Option Int := fun ds neg =>
    let digits := ds.takeWhile Char.isDigit
    if digits.isEmpty then none
    else
      let n : Nat := digits.foldl (fun acc c => acc * 10 + (c.toNat - 48)) 0
      some (if neg then -(n : Int) else (n : Int))
  match s.data with
  | '-' :: rest => core rest true
  | '+' :: rest => core rest false
  | rest => core rest false

/-- `String.prototype.trim`: strip whitespace from both ends. (JS trims the
full Unicode whitespace class; ASCII whitespace is what the reachable header
values can contain.) -/
def jsTrim (s : String) : String :=
  ⟨((s.data.dropWhile Char.isWhitespace).reverse.dropWhile Char.isWhitespace).reverse⟩

/-- JS truthiness of a `string | null | undefined` value: `null`, `undefined`
and `""` are falsy. -/
def jsStrTruthy : Option String → Bool
  | none => false
  | some s => !s.isEmpty

/-- `v ? Date.parse(v) : NaN` for `v : string | null | undefined`,
with `none` modelling `NaN`. (`Date.parse ""` is `NaN` as well, so routing
the falsy `""` through `none` is exact.) -/
def jsDateParseField (dateParse : String → Option Int) : Option String → Option Int
  | none => none
  | some s => if s.isEmpty then none else dateParse s

/-! ## Concrete fragment of `Date.parse` (for concrete evaluations)

`Date.parse` on a strict ISO-8601 UTC string `"YYYY-MM-DDTHH:MM:SSZ"` returns
the number of milliseconds since the Unix epoch. `isoParseMs` implements
exactly that fragment (and returns `none` on anything else), using the
standard civil-from-days calendar computation. -/

/-- Two-digit decimal number. -/
def num2 (a b : Char) : Option Nat := do
  let x ← digitVal a
  let y ← digitVal b
  pure (10 * x + y)

/-- Four-digit decimal number. -/
def num4 (a b c d : Char) : Option Nat := do
  let x ← num2 a b
  let y ← num2 c d
  pure (100 * x + y)

/-- Days since 1970-01-01 of the civil date `y-m-d` (proleptic Gregorian). -/
def daysFromCivil (y m d : Nat) : Int :=
  let y' := if m ≤ 2 then y - 1 else y
  let era := y' / 400
  let yoe := y' % 400
  let mp := (m + 9) % 12
  let doy := (153 * mp + 2) / 5 + (d - 1)
  let doe := yoe * 365 + yoe / 4 - yoe / 100 + doy
  (era * 146097 + doe : Int) - 719468

/-- `Date.parse` restricted to strict `"YYYY-MM-DDTHH:MM:SSZ"` strings. -/
def isoParseMs (s : String) : Option Int :=
  match s.data with
  | [y1, y2, y3, y4, c1, m1, m2, c2, d1, d2, t, h1, h2, c3, i1, i2, c4, s1, s2, z] =>
    if c1 = '-' ∧ c2 = '-' ∧ t = 'T' ∧ c3 = ':' ∧ c4 = ':' ∧ z = 'Z' then
      match num4 y1 y2 y3 y4, num2 m1 m2, num2 d1 d2, num2 h1 h2, num2 i1 i2, num2 s1 s2 with
      | some y, some mo, some da, some h, some mi, some se =>
        if 1 ≤ mo ∧ mo ≤ 12 ∧ 1 ≤ da ∧ da ≤ 31 ∧ h ≤ 23 ∧ mi ≤ 59 ∧ se ≤ 59 then
          some (daysFromCivil y mo da * 86400000 + (h * 3600000 + mi * 60000 + se * 1000 : Nat))
        else none
      | _, _, _, _, _, _ => none
    else none
  | _ => none

/-! ## `src/lib/telemetry.ts` -/

def API_BASE : String := "https://telemetry.lasersell.app"

def DEFAULT_REQUEST_TIMEOUT_MS : Nat := 8000

def STREAM_TIMEOUT_BUFFER_MS : Nat := 2000

/-- `parseRetryAfterMs(headers)` from `telemetry.ts` lines 5-23, with the
`headers.get("retry-after")` result passed in as `value`, `Date.parse`
as `dateParse` and `Date.now()` as `now`. -/
def parseRetryAfterMs (dateParse : String → Option Int) (now : Int)
    (value : Option String) : Option Int :=
  match value with
  | none => none
  | some v =>
    if v.isEmpty then none
    else
      let trimmed := jsTrim v
      if trimmed.isEmpty then none
      else
        match jsParseIntDec trimmed with
        | some seconds => some (max 0 seconds * 1000)
        | none =>
          match dateParse trimmed with
          | some dateMs => some (max 0 (dateMs - now))
          | none => none

/-- `isTransientStatus` from `telemetry.ts` lines 25-27. -/
def isTransientStatus (status : Nat) : Bool :=
  status == 429 || 500 ≤ status

/-- `Response.ok`: derived from the status, true iff the status is in 200-299. -/
def respOk (status : Nat) : Bool :=
  200 ≤ status && status ≤ 299

/-- The `ApiError` class (`telemetry.ts` lines 144-162). The opaque `body`
payload stored on the error is not modelled; no claim reads it. -/
structure ApiError where
  status : Nat
  message : String
  retryAfterMs : Option Int
  isTransient : Bool
deriving Repr, DecidableEq

/-! ### Response payload types (`telemetry.ts` lines 63-127)

JSON numbers are modelled with `Int`; no claim performs arithmetic on any of
these payload fields, they only travel through the poll loop by identity. -/

structure TelemetrySession where
  mint : String
  symbol : String
  name : Option String
  status : String
  pnl_lamports : Int
  cost_basis_lamports : Option Int
  position_tokens : Option Int
deriving Repr, DecidableEq

structure RpcStats where
  total : Int
  errors : Int
  latest_ms : Option Int
  avg_ms : Option Int
  p95_ms : Option Int
deriving Repr, DecidableEq

structure TelemetryState where
  balance_lamports : Option Int
  total_pnl_lamports : Int
  pnl_history : List (Int × Int)
  rpc : Option RpcStats
  sessions : List TelemetrySession
deriving Repr, DecidableEq

structure PerformanceWindowStats where
  h1 : Int
  d1 : Int
  d7 : Int
  d30 : Int
  all : Int
deriving Repr, DecidableEq

structure PerformanceMetrics where
  avg_time_to_profit_sec : PerformanceWindowStats
  profitable_trades : PerformanceWindowStats
  non_profitable_trades : PerformanceWindowStats
deriving Repr, DecidableEq

structure RecentTrade where
  mint : String
  name : Option String
  symbol : Option String
  profit_lamports : Option Int
  hold_seconds : Option Int
  sell_signature : String
  sell_block_time : Option String
deriving Repr, DecidableEq

structure AgentInfo where
  wallet_pubkey : Option String
  devnet : Option Bool
  client_version : Option String
  net_pnl_lamports : Option Int
  net_pnl_updated_at : Option String
  performance : Option PerformanceMetrics
  performance_updated_at : Option String
  recent_trades : Option (List RecentTrade)
deriving Repr, DecidableEq

/-- `ViewerStateResponse` (`telemetry.ts` lines 111-127). -/
structure ViewerStateResponse where
  ok : Bool
  agent_id : String
  last_seen_at : Option String
  state_updated_at : Option String
  agent : Option AgentInfo
  state : Option TelemetryState
deriving Repr, DecidableEq

/-- A JSON body as far as the state-fetch functions inspect it:
`okField`/`errorField` record presence and value of the `"ok"` / `"error"`
keys; `resp` is the body read as a `ViewerStateResponse` (meaningful only on
the success path, where the code casts the raw body). -/
structure StateBody where
  okField : Option Bool
  errorField : Option String
  resp : ViewerStateResponse
deriving Repr, DecidableEq

/-- Outcome of one `fetchWithTimeout` call as the callers observe it:
either the fetch promise rejected (network failure, or abort by the
client-side timeout), or a response arrived with a status, a JSON-parsed
body (`none` models a body that failed to parse) and an optional
`retry-after` header. -/
inductive FetchOutcome where
  | reject (aborted : Bool)
  | response (status : Nat) (body : Option StateBody) (retryAfterHeader : Option String)
deriving Repr, DecidableEq

/-- `fetchViewerState` (`telemetry.ts` lines 194-226): its result as a function
of the HTTP outcome. `Except.error` models a thrown `ApiError`. -/
def fetchViewerStateModel (dateParse : String → Option Int) (now : Int)
    (o : FetchOutcome) : Except ApiError ViewerStateResponse :=
  match o with
  | .reject aborted =>
    .error ⟨0, if aborted then "timeout" else "network_error", none, true⟩
  | .response status body retryAfterHeader =>
    match body with
    | none =>
      .error ⟨status, "request_failed",
        parseRetryAfterMs dateParse now retryAfterHeader, isTransientStatus status⟩
    | some b =>
      if !respOk status || b.okField == some false then
        .error ⟨status, b.errorField.getD "request_failed",
          parseRetryAfterMs dateParse now retryAfterHeader, isTransientStatus status⟩
      else .ok b.resp

/-- `fetchViewerStateStream` (`telemetry.ts` lines 228-275): result as a
function of the HTTP outcome. A 204 status returns `none` (no change) before
any body inspection; otherwise the handling matches `fetchViewerState`. -/
def fetchViewerStateStreamModel (dateParse : String → Option Int) (now : Int)
    (o : FetchOutcome) : Except ApiError (Option ViewerStateResponse) :=
  match o with
  | .reject aborted =>
    .error ⟨0, if aborted then "timeout" else "network_error", none, true⟩
  | .response status body retryAfterHeader =>
    if status = 204 then .ok none
    else
      match body with
      | none =>
        .error ⟨status, "request_failed",
          parseRetryAfterMs dateParse now retryAfterHeader, isTransientStatus status⟩
      | some b =>
        if !respOk status || b.okField == some false then
          .error ⟨status, b.errorField.getD "request_failed",
            parseRetryAfterMs dateParse now retryAfterHeader, isTransientStatus status⟩
        else .ok (some b.resp)

/-- The request configuration `fetchViewerStateStream` builds before the call
(`telemetry.ts` lines 234-243): which query parameters are set and the
client-side timeout handed to `fetchWithTimeout`. JS truthiness: `timeoutMs`
is falsy when absent or `0`; `sinceIso` is falsy when absent or `""`. -/
structure StreamRequest where
  sinceParam : Option String
  timeoutParam : Option Nat
  requestTimeoutMs : Nat
deriving Repr, DecidableEq

def streamRequestOf (sinceIso : Option String) (timeoutMs : Option Nat) : StreamRequest :=
  { sinceParam := if jsStrTruthy sinceIso then sinceIso else none
    timeoutParam :=
      match timeoutMs with
      | some n => if n ≠ 0 then some n else none
      | none => none
    requestTimeoutMs :=
      match timeoutMs with
      | some n => if n ≠ 0 then n + STREAM_TIMEOUT_BUFFER_MS else DEFAULT_REQUEST_TIMEOUT_MS
      | none => DEFAULT_REQUEST_TIMEOUT_MS }

/-- A JSON body as far as `pair` inspects it (`PairResponse`,
`telemetry.ts` lines 51-61): presence/value of `"ok"` and `"error"`, plus the
credential fields returned on success. -/
structure PairBody where
  okField : Bool
  errorField : Option String
  agent_id : String
  viewer_token : String
  expires_at : String
deriving Repr, DecidableEq

/-- Outcome of the single `fetchWithTimeout` call inside `pair`. -/
inductive PairOutcome where
  | reject
  | response (status : Nat) (body : Option PairBody)
deriving Repr, DecidableEq

/-- Value returned by `pair`. -/
inductive PairResult where
  | success (agent_id viewer_token expires_at : String)
  | failure (error : String)
deriving Repr, DecidableEq

/-- `pair` (`telemetry.ts` lines 168-192) as a function of the HTTP outcome.
It is a total function into `PairResult`: every failure is returned as a
value, nothing is thrown. -/
def pairModel (o : PairOutcome) : PairResult :=
  match o with
  | .reject => .failure "network_error"
  | .response status body =>
    match body with
    | none => .failure "network_error"
    | some b =>
      if !respOk status || !b.okField then
        .failure (b.errorField.getD "network_error")
      else .success b.agent_id b.viewer_token b.expires_at

/-! ## `src/lib/storage.ts` -/

/-- The `chrome.storage.local` area restricted to the keys this extension
uses; `none` models an absent key (or a stored `null`, which every reader
treats identically via `?? null`). -/
structure StorageArea where
  viewer_token : Option String
  agent_id : Option String
  expires_at : Option String
  preferred_currency : Option String
deriving Repr, DecidableEq

/-- The `AuthState` type (`storage.ts` lines 3-7). -/
structure AuthState where
  viewer_token : String
  agent_id : String
  expires_at : Option String
deriving Repr, DecidableEq

/-- `getAuth` (`storage.ts` lines 9-22): reads the three auth keys and
resolves `null` unless both `viewer_token` and `agent_id` are truthy. -/
def getAuthModel (a : StorageArea) : Option AuthState :=
  match a.viewer_token, a.agent_id with
  | some vt, some aid =>
    if vt.isEmpty || aid.isEmpty then none
    else some { viewer_token := vt, agent_id := aid, expires_at := a.expires_at }
  | _, _ => none

/-- `setAuth` (`storage.ts` lines 24-35): one `chrome.storage.local.set` call
writing `viewer_token`, `agent_id` and `expires_at ?? null` together. -/
def setAuthModel (auth : AuthState) (a : StorageArea) : StorageArea :=
  { a with
    viewer_token := some auth.viewer_token
    agent_id := some auth.agent_id
    expires_at := auth.expires_at }

/-- `clearAuth` (`storage.ts` lines 37-41): one `chrome.storage.local.remove`
call removing the three `AUTH_KEYS` (other keys untouched). -/
def clearAuthModel (a : StorageArea) : StorageArea :=
  { a with viewer_token := none, agent_id := none, expires_at := none }

/-! ## The side-panel poll loop (`SidePanelApp.tsx` lines 106-122 and 242-311) -/

/-- `maxIsoTimestamp` (`SidePanelApp.tsx` lines 106-122): of two optional ISO
strings, return the one whose `Date.parse` value is larger (ties favour the
first), the parseable one if only one parses, else `null`. -/
def maxIsoTimestamp (dateParse : String → Option Int)
    (first second : Option String) : Option String :=
  match jsDateParseField dateParse first, jsDateParseField dateParse second with
  | some f, some s => if f ≥ s then first else second
  | some _, none => first
  | none, some _ => second
  | none, none => none

/-- An error caught by the loop's `catch`: either an `ApiError` thrown by
`fetchViewerStateStream`, or anything else (published wrapped as a plain
`Error`, which the model does not distinguish further). -/
inductive CaughtError where
  | api (e : ApiError)
  | other (message : String)
deriving Repr, DecidableEq

/-- `err instanceof ApiError && err.status === 401` (line 285). -/
def CaughtError.is401 : CaughtError → Bool
  | .api e => e.status == 401
  | .other _ => false

/-- How one awaited `fetchViewerStateStream` call comes back to the loop:
a snapshot (`nowIso` is the value `new Date().toISOString()` would produce at
that instant, read only on the unparseable-timestamps fallback), a `null`
result (HTTP 204, no change), or a rejection with a caught error. -/
inductive StreamOutcome where
  | snapshot (v : ViewerStateResponse) (nowIso : String)
  | noChange
  | failure (e : CaughtError)
deriving Repr, DecidableEq

def StreamOutcome.isSnapshot : StreamOutcome → Bool
  | .snapshot _ _ => true
  | _ => false

def StreamOutcome.isFailure : StreamOutcome → Bool
  | .failure _ => true
  | _ => false

/-- A success is a resolved request: a snapshot or a 204. -/
def StreamOutcome.isSuccess (o : StreamOutcome) : Bool :=
  !o.isFailure

/-- An outcome that takes the loop down the unauthorized path. -/
def StreamOutcome.isAuthFailure : StreamOutcome → Bool
  | .failure e => e.is401
  | _ => false

/-- Observable effects of one loop iteration, in program order. -/
inductive PollEvent where
  | request (since : Option String)
  | pubState (v : ViewerStateResponse)
  | pubError (e : Option CaughtError)
  | pubLoading (b : Bool)
  | clearCred
  | waited (ms : Nat)
deriving Repr, DecidableEq

def PollEvent.isRequest : PollEvent → Bool
  | .request _ => true
  | _ => false

def PollEvent.isClearCred : PollEvent → Bool
  | .clearCred => true
  | _ => false

def PollEvent.isWaited : PollEvent → Bool
  | .waited _ => true
  | _ => false

/-- State of one poll-loop instance: the loop-local variables of the effect at
lines 254-257 (`since`, `initial`, `backoffMs`), the component state it
publishes (`viewerState`, `viewerError`, `viewerLoading`), and whether the
loop has returned (`stopped`, set by the 401 path). -/
structure PollState where
  since : Option String
  backoffMs : Nat
  initial : Bool
  viewerState : Option ViewerStateResponse
  viewerError : Option CaughtError
  viewerLoading : Bool
  stopped : Bool
deriving Repr, DecidableEq

/-- Loop state at `poll()` entry (lines 252-257): `since = null`,
`backoffMs = 1000`, `initial = true`, `viewerError` just set to `null`;
the previously rendered snapshot and loading flag are arbitrary. -/
def initPollState (vs0 : Option ViewerStateResponse) (loading0 : Bool) : PollState :=
  { since := none, backoffMs := 1000, initial := true,
    viewerState := vs0, viewerError := none, viewerLoading := loading0,
    stopped := false }

/-- Result of one iteration of the `while (!cancelled)` body. Each emitted
event is tagged with the value of the `cancelled` flag at the moment the
effect runs (the flag can only change at the two suspension points: the
awaited fetch and the backoff sleep). `again` is whether control reaches the
next `while (!cancelled)` test with the loop still running. -/
structure StepResult where
  state : PollState
  events : List (Bool × PollEvent)
  again : Bool
deriving Repr, DecidableEq

/-- One iteration of the loop body (`SidePanelApp.tsx` lines 260-303),
entered with `cancelled = false`. `cancelFetch` / `cancelWait` say whether
the cleanup (line 308-310) sets `cancelled` while the fetch / the backoff
sleep is suspended. Program order is preserved exactly:
`setViewerLoading(true)` when `initial`; the fetch; the `if (cancelled)
return` guards of lines 266 and 282; then the branch effects. -/
def pollStepC (dateParse : String → Option Int) (st : PollState)
    (cancelFetch cancelWait : Bool) (o : StreamOutcome) : StepResult :=
  let preEvs : List (Bool × PollEvent) :=
    (if st.initial then [(false, .pubLoading true)] else []) ++ [(false, .request st.since)]
  let stPre : PollState := if st.initial then { st with viewerLoading := true } else st
  match o with
  | .snapshot v now =>
    if cancelFetch then { state := stPre, events := preEvs, again := false }
    else
      { state := { stPre with
          viewerState := some v
          viewerError := none
          since := some ((maxIsoTimestamp dateParse v.state_updated_at v.last_seen_at).getD now)
          viewerLoading := if st.initial then false else st.viewerLoading
          initial := false
          backoffMs := 1000 }
        events := preEvs ++ [(cancelFetch, .pubState v), (cancelFetch, .pubError none)] ++
          (if st.initial then [(cancelFetch, .pubLoading false)] else [])
        again := true }
  | .noChange =>
    if cancelFetch then { state := stPre, events := preEvs, again := false }
    else
      { state := { stPre with
          viewerLoading := if st.initial then false else st.viewerLoading
          initial := false
          backoffMs := 1000 }
        events := preEvs ++ (if st.initial then [(cancelFetch, .pubLoading false)] else [])
        again := true }
  | .failure e =>
    if cancelFetch then { state := stPre, events := preEvs, again := false }
    else if e.is401 then
      { state := { stPre with
          viewerLoading := if st.initial then false else st.viewerLoading
          initial := false
          stopped := true }
        events := preEvs ++ (if st.initial then [(cancelFetch, .pubLoading false)] else []) ++
          [(cancelFetch, .clearCred)]
        again := false }
    else
      { state := { stPre with
          viewerError := some e
          viewerLoading := if st.initial then false else st.viewerLoading
          initial := false
          backoffMs := min (st.backoffMs * 2) 8000 }
        events := preEvs ++ [(cancelFetch, .pubError (some e))] ++
          (if st.initial then [(cancelFetch, .pubLoading false)] else []) ++
          [(cancelFetch, .waited st.backoffMs)]
        again := !cancelWait }

/-- Uncancelled run of the loop over a list of request outcomes (one outcome
per issued request). Processing stops once the loop has returned: outcomes
after the stop never correspond to requests. -/
def pollRun (dateParse : String → Option Int) :
    PollState → List StreamOutcome → PollState × List PollEvent
  | st, [] => (st, [])
  | st, o :: os =>
    if st.stopped then (st, [])
    else
      let r := pollStepC dateParse st false false o
      let rest := pollRun dateParse r.state os
      (rest.1, r.events.map Prod.snd ++ rest.2)

/-- Millisecond value of the current watermark, via `Date.parse`. -/
def wmMs (dateParse : String → Option Int) (st : PollState) : Option Int :=
  jsDateParseField dateParse st.since

/-- The watermark value a snapshot outcome installs: the `Date.parse` value of
`maxIsoTimestamp(state_updated_at, last_seen_at) ?? nowIso`. -/
def snapVal (dateParse : String → Option Int) : StreamOutcome → Option Int
  | .snapshot v now =>
    jsDateParseField dateParse
      (some ((maxIsoTimestamp dateParse v.state_updated_at v.last_seen_at).getD now))
  | _ => none

/-- Watermark values installed by the snapshots of an outcome list, in order. -/
def outcomeVals (dateParse : String → Option Int) (os : List StreamOutcome) : List Int :=
  os.filterMap (snapVal dateParse)

/-- The backoff waits of an event trace, in order. -/
def waitsOf (evs : List PollEvent) : List Nat :=
  evs.filterMap fun e => match e with | .waited ms => some ms | _ => none

/-- Replay the storage effects of an event trace: only `clearCred`
(`handleExpired` → `clearAuth`) touches the store. -/
def applyStorageEvents (evs : List PollEvent) (a : StorageArea) : StorageArea :=
  evs.foldl (fun a e => match e with | .clearCred => clearAuthModel a | _ => a) a

/-- A minimal snapshot response carrying a given `state_updated_at`
timestamp (used to evaluate the watermark behaviour on concrete inputs). -/
def snapAt (ts : String) : ViewerStateResponse :=
  { ok := true, agent_id := "agent-1", last_seen_at := none,
    state_updated_at := some ts, agent := none, state := none }

/-- The loading flag is only ever true while the loop is in its initial
phase: every branch that ends the initial phase publishes `false`. -/
def loadInv (st : PollState) : Prop :=
  st.initial = false → st.viewerLoading = false

/-- The wait the loop takes at each of a run of consecutive failures,
starting from backoff value `b`: `b`, then doubling, capped at 8000. -/
def expectedWaits : Nat → Nat → List Nat
  | _, 0 => []
  | b, n + 1 => b :: expectedWaits (min (b * 2) 8000) n

/-! ## Helper lemmas about the loop -/

section PollLemmas

variable (dp : String → Option Int)

lemma pollRun_stopped (st : PollState) (h : st.stopped = true)
    (os : List StreamOutcome) : pollRun dp st os = (st, []) := by
  cases os <;> simp [pollRun, h]

lemma pollRun_cons_active (st : PollState) (h : st.stopped = false)
    (o : StreamOutcome) (os : List StreamOutcome) :
    pollRun dp st (o :: os) =
      ((pollRun dp (pollStepC dp st false false o).state os).1,
        (pollStepC dp st false false o).events.map Prod.snd ++
          (pollRun dp (pollStepC dp st false false o).state os).2) := by
  simp [pollRun, h]

lemma pollRun_append (st : PollState) (xs ys : List StreamOutcome) :
    pollRun dp st (xs ++ ys) =
      ((pollRun dp (pollRun dp st xs).1 ys).1,
        (pollRun dp st xs).2 ++ (pollRun dp (pollRun dp st xs).1 ys).2) := by
  induction xs generalizing st with
  | nil => simp [pollRun]
  | cons o xs ih =>
    by_cases h : st.stopped
    · simp [pollRun, h, pollRun_stopped dp _ h]
    · simp only [List.cons_append, pollRun_cons_active dp st (by simp [h]) o, ih,
        List.append_assoc]

lemma stepC_stopped (st : PollState) (o : StreamOutcome) :
    (pollStepC dp st false false o).state.stopped = (st.stopped || o.isAuthFailure) := by
  cases o with
  | snapshot v now =>
    by_cases h : st.initial <;> simp [pollStepC, StreamOutcome.isAuthFailure, h]
  | noChange => by_cases h : st.initial <;> simp [pollStepC, StreamOutcome.isAuthFailure, h]
  | failure e =>
    by_cases h401 : e.is401 <;> by_cases h : st.initial <;>
      simp [pollStepC, StreamOutcome.isAuthFailure, h401, h]

lemma stepC_since_nonsnap (st : PollState) (o : StreamOutcome)
    (h : o.isSnapshot = false) :
    (pollStepC dp st false false o).state.since = st.since := by
  cases o with
  | snapshot v now => simp [StreamOutcome.isSnapshot] at h
  | noChange => by_cases hi : st.initial <;> simp [pollStepC, hi]
  | failure e =>
    by_cases h401 : e.is401 <;> by_cases hi : st.initial <;> simp [pollStepC, h401, hi]

lemma stepC_since_snapshot (st : PollState) (v : ViewerStateResponse) (now : String) :
    (pollStepC dp st false false (.snapshot v now)).state.since =
      some ((maxIsoTimestamp dp v.state_updated_at v.last_seen_at).getD now) := by
  by_cases hi : st.initial <;> simp [pollStepC, hi]

lemma run_stopped_no401 (os : List StreamOutcome) (st : PollState)
    (h : ∀ o ∈ os, o.isAuthFailure = false) :
    (pollRun dp st os).1.stopped = st.stopped := by
  induction os generalizing st with
  | nil => simp [pollRun]
  | cons o os ih =>
    by_cases hs : st.stopped
    · simp [pollRun_stopped dp st (by simp [hs]), hs]
    · rw [pollRun_cons_active dp st (by simp [hs])]
      rw [ih _ (fun x hx => h x (List.mem_cons_of_mem o hx))]
      simp [stepC_stopped, hs, h o (List.mem_cons_self o os)]

lemma run_since_nonsnap (os : List StreamOutcome) (st : PollState)
    (h : ∀ o ∈ os, o.isSnapshot = false) :
    (pollRun dp st os).1.since = st.since := by
  induction os generalizing st with
  | nil => simp [pollRun]
  | cons o os ih =>
    by_cases hs : st.stopped
    · simp [pollRun_stopped dp st (by simp [hs])]
    · rw [pollRun_cons_active dp st (by simp [hs])]
      rw [ih _ (fun x hx => h x (List.mem_cons_of_mem o hx))]
      exact stepC_since_nonsnap dp st o (h o (List.mem_cons_self o os))

lemma stepC_loadInv (st : PollState) (o : StreamOutcome) (hinv : loadInv st) :
    loadInv (pollStepC dp st false false o).state := by
  cases o with
  | snapshot v now =>
    by_cases hi : st.initial
    · simp [pollStepC, hi, loadInv]
    · simp [pollStepC, hi, loadInv, hinv (by simpa using hi)]
  | noChange =>
    by_cases hi : st.initial
    · simp [pollStepC, hi, loadInv]
    · simp [pollStepC, hi, loadInv, hinv (by simpa using hi)]
  | failure e =>
    by_cases h401 : e.is401 <;> by_cases hi : st.initial
    · simp [pollStepC, h401, hi, loadInv]
    · simp [pollStepC, h401, hi, loadInv, hinv (by simpa using hi)]
    · simp [pollStepC, h401, hi, loadInv]
    · simp [pollStepC, h401, hi, loadInv, hinv (by simpa using hi)]

lemma run_loadInv (os : List StreamOutcome) (st : PollState) (hinv : loadInv st) :
    loadInv (pollRun dp st os).1 := by
  induction os generalizing st with
  | nil => simpa [pollRun] using hinv
  | cons o os ih =>
    by_cases hs : st.stopped
    · simpa [pollRun_stopped dp st (by simp [hs])] using hinv
    · rw [pollRun_cons_active dp st (by simp [hs])]
      exact ih _ (stepC_loadInv dp st o hinv)

lemma stepC_counts_no401 (st : PollState) (o : StreamOutcome)
    (h : o.isAuthFailure = false) :
    ((pollStepC dp st false false o).events.map Prod.snd).countP PollEvent.isRequest = 1 ∧
    ((pollStepC dp st false false o).events.map Prod.snd).countP PollEvent.isClearCred = 0 := by
  cases o with
  | snapshot v now =>
    by_cases hi : st.initial <;>
      simp [pollStepC, hi, PollEvent.isRequest, PollEvent.isClearCred]
  | noChange =>
    by_cases hi : st.initial <;>
      simp [pollStepC, hi, PollEvent.isRequest, PollEvent.isClearCred]
  | failure e =>
    have h401 : e.is401 = false := by simpa [StreamOutcome.isAuthFailure] using h
    by_cases hi : st.initial <;>
      simp [pollStepC, hi, h401, PollEvent.isRequest, PollEvent.isClearCred]

lemma run_counts_no401 (os : List StreamOutcome) (st : PollState)
    (h : ∀ o ∈ os, o.isAuthFailure = false) (hs : st.stopped = false) :
    (pollRun dp st os).2.countP PollEvent.isRequest = os.length ∧
    (pollRun dp st os).2.countP PollEvent.isClearCred = 0 := by
  induction os generalizing st with
  | nil => simp [pollRun]
  | cons o os ih =>
    rw [pollRun_cons_active dp st hs]
    have hhd := h o (List.mem_cons_self o os)
    have hstep := stepC_counts_no401 dp st o hhd
    have hs1 : (pollStepC dp st false false o).state.stopped = false := by
      rw [stepC_stopped]; simp [hs, hhd]
    have ihx := ih (pollStepC dp st false false o).state
      (fun x hx => h x (List.mem_cons_of_mem o hx)) hs1
    simp [List.countP_append, hstep.1, hstep.2, ihx.1, ihx.2, Nat.add_comm]

lemma stepC_events_401 (st : PollState) (e : CaughtError) (he : e.is401 = true) :
    (pollStepC dp st false false (.failure e)).events.map Prod.snd =
      ((if st.initial then [PollEvent.pubLoading true] else []) ++
        [PollEvent.request st.since] ++
        (if st.initial then [PollEvent.pubLoading false] else [])) ++
        [PollEvent.clearCred] := by
  by_cases hi : st.initial <;> simp [pollStepC, he, hi]

lemma stepC_state_401 (st : PollState) (e : CaughtError) (he : e.is401 = true) :
    (pollStepC dp st false false (.failure e)).state.stopped = true := by
  by_cases hi : st.initial <;> simp [pollStepC, he, hi]

lemma stepC_failure_non401 (st : PollState) (e : CaughtError) (he : e.is401 = false) :
    waitsOf ((pollStepC dp st false false (.failure e)).events.map Prod.snd) =
      [st.backoffMs] ∧
    (pollStepC dp st false false (.failure e)).state.backoffMs =
      min (st.backoffMs * 2) 8000 ∧
    (pollStepC dp st false false (.failure e)).state.stopped = st.stopped := by
  by_cases hi : st.initial <;> simp [pollStepC, he, hi, waitsOf]

lemma stepC_success (st : PollState) (o : StreamOutcome) (h : o.isSuccess = true) :
    waitsOf ((pollStepC dp st false false o).events.map Prod.snd) = [] ∧
    (pollStepC dp st false false o).state.backoffMs = 1000 ∧
    (pollStepC dp st false false o).state.stopped = st.stopped := by
  cases o with
  | snapshot v now => by_cases hi : st.initial <;> simp [pollStepC, hi, waitsOf]
  | noChange => by_cases hi : st.initial <;> simp [pollStepC, hi, waitsOf]
  | failure e => simp [StreamOutcome.isSuccess, StreamOutcome.isFailure] at h

lemma run_waits_failures (es : List CaughtError) (st : PollState)
    (hs : st.stopped = false) (he : ∀ e ∈ es, e.is401 = false) :
    waitsOf (pollRun dp st (es.map .failure)).2 = expectedWaits st.backoffMs es.length := by
  induction es generalizing st with
  | nil => simp [pollRun, expectedWaits, waitsOf]
  | cons e es ih =>
    rw [List.map_cons, pollRun_cons_active dp st hs]
    have hhd := he e (List.mem_cons_self e es)
    have hstep := stepC_failure_non401 dp st e hhd
    have hs1 : (pollStepC dp st false false (.failure e)).state.stopped = false := by
      rw [hstep.2.2]; exact hs
    have ihx := ih (pollStepC dp st false false (.failure e)).state hs1
      (fun x hx => he x (List.mem_cons_of_mem e hx))
    simp only [waitsOf, List.filterMap_append] at *
    rw [ihx, hstep.2.1]
    have : List.filterMap
        (fun ev => match ev with | PollEvent.waited ms => some ms | _ => none)
        ((pollStepC dp st false false (.failure e)).events.map Prod.snd) = [st.backoffMs] :=
      hstep.1
    rw [this]
    simp [expectedWaits]

lemma expectedWaits_min_pow (n k : Nat) :
    expectedWaits (min (1000 * 2 ^ k) 8000) n =
      (List.range n).map (fun i => min (1000 * 2 ^ (k + i)) 8000) := by
  induction n generalizing k with
  | zero => simp [expectedWaits]
  | succ n ih =>
    rw [expectedWaits]
    have h2 : min (min (1000 * 2 ^ k) 8000 * 2) 8000 = min (1000 * 2 ^ (k + 1)) 8000 := by
      have hp : 1000 * 2 ^ k * 2 = 1000 * 2 ^ (k + 1) := by ring
      rw [← hp]
      generalize (1000 * 2 ^ k) = a
      omega
    rw [h2, ih (k + 1), List.range_succ_eq_map]
    simp only [List.map_cons, List.map_map, Function.comp, Nat.succ_eq_add_one]
    refine List.cons_eq_cons.mpr ⟨by simp, ?_⟩
    apply List.map_congr_left
    intro i _
    have hx : k + 1 + i = k + (i + 1) := by omega
    simp [Function.comp, Nat.succ_eq_add_one, hx]

lemma wm_initPollState (vs0 : Option ViewerStateResponse) (l0 : Bool) :
    wmMs dp (initPollState vs0 l0) = none := rfl

lemma stepC_wm_snapshot (st : PollState) (v : ViewerStateResponse) (now : String) :
    wmMs dp (pollStepC dp st false false (.snapshot v now)).state =
      snapVal dp (.snapshot v now) := by
  simp [wmMs, stepC_since_snapshot, snapVal, jsDateParseField]

lemma getLast?_cons_or (u : Int) (l : List Int) (x : Option Int) :
    ((u :: l).getLast?).or x = (l.getLast?).or (some u) := by
  cases l with
  | nil => simp
  | cons b l2 =>
    rw [List.getLast?_cons_cons]
    have hne : (b :: l2).getLast?.isSome := by
      rw [List.getLast?_isSome]; simp
    cases hq : (b :: l2).getLast? with
    | none => rw [hq] at hne; simp at hne
    | some w => simp

lemma success_not_authFailure (o : StreamOutcome) (h : o.isFailure = false) :
    o.isAuthFailure = false := by
  cases o <;> simp_all [StreamOutcome.isFailure, StreamOutcome.isAuthFailure]

lemma run_success_wm (os : List StreamOutcome) (st : PollState)
    (hs : st.stopped = false)
    (hsucc : ∀ o ∈ os, o.isFailure = false)
    (hok : ∀ o ∈ os, o.isSnapshot = true → (snapVal dp o).isSome = true) :
    wmMs dp (pollRun dp st os).1 = ((outcomeVals dp os).getLast?).or (wmMs dp st) := by
  induction os generalizing st with
  | nil => simp [pollRun, outcomeVals]
  | cons o os ih =>
    rw [pollRun_cons_active dp st hs]
    have hs1 : (pollStepC dp st false false o).state.stopped = false := by
      rw [stepC_stopped]
      simp [hs, success_not_authFailure o (hsucc o (List.mem_cons_self o os))]
    have ihx := ih (pollStepC dp st false false o).state hs1
      (fun x hx => hsucc x (List.mem_cons_of_mem o hx))
      (fun x hx => hok x (List.mem_cons_of_mem o hx))
    cases o with
    | snapshot v now =>
      obtain ⟨u, hu⟩ := Option.isSome_iff_exists.mp
        (hok _ (List.mem_cons_self _ os) rfl)
      rw [ihx, stepC_wm_snapshot, hu]
      have hvals : outcomeVals dp (.snapshot v now :: os) = u :: outcomeVals dp os := by
        simp [outcomeVals, List.filterMap_cons, hu]
      rw [hvals, getLast?_cons_or]
    | noChange =>
      have hwm : wmMs dp (pollStepC dp st false false .noChange).state = wmMs dp st := by
        unfold wmMs
        rw [stepC_since_nonsnap dp st .noChange rfl]
      rw [ihx, hwm]
      have hvals : outcomeVals dp (.noChange :: os) = outcomeVals dp os := by
        simp [outcomeVals, List.filterMap_cons, snapVal]
      rw [hvals]
    | failure e =>
      have := hsucc _ (List.mem_cons_self _ os)
      simp [StreamOutcome.isFailure] at this

lemma applyStorage_append (xs ys : List PollEvent) (a : StorageArea) :
    applyStorageEvents (xs ++ ys) a = applyStorageEvents ys (applyStorageEvents xs a) := by
  unfold applyStorageEvents
  rw [List.foldl_append]

end PollLemmas

/-! ## Claims -/

/-- C2 (amended): on a 204/no-change stream result the loop leaves the
published snapshot unchanged, leaves the published error unchanged (the code
only clears the error inside the non-empty-snapshot branch, so a 204 does
not set it to null), resets the backoff delay to its 1000ms floor, leaves
the loading flag false afterwards, and re-issues immediately (no backoff
wait, loop continues). -/
theorem no_change_preserves_published_state (dp : String → Option Int)
    (vs0 : Option ViewerStateResponse) (l0 : Bool) (os : List StreamOutcome)
    (st : PollState)
    (hreach : st = (pollRun dp (initPollState vs0 l0) os).1)
    (_hstop : st.stopped = false) :
    (pollStepC dp st false false .noChange).state.viewerState = st.viewerState ∧
    (pollStepC dp st false false .noChange).state.viewerError = st.viewerError ∧
    (pollStepC dp st false false .noChange).state.backoffMs = 1000 ∧
    (pollStepC dp st false false .noChange).state.viewerLoading = false ∧
    ((pollStepC dp st false false .noChange).events.map Prod.snd).countP
      PollEvent.isWaited = 0 ∧
    (pollStepC dp st false false .noChange).again = true := by
  have hinv : loadInv st := by
    rw [hreach]
    exact run_loadInv dp os _ (fun h => nomatch h)
  by_cases hi : st.initial
  · simp [pollStepC, hi, PollEvent.isWaited]
  · simp [pollStepC, hi, PollEvent.isWaited, hinv (by simpa using hi)]

/-- Witness for `no_change_preserves_published_state` at the freshly started
loop state. -/
theorem no_change_preserves_published_state_witness :
    (pollStepC (fun _ => none) (initPollState none false) false false
        .noChange).state.viewerState = (initPollState none false).viewerState ∧
    (pollStepC (fun _ => none) (initPollState none false) false false
        .noChange).state.viewerError = (initPollState none false).viewerError ∧
    (pollStepC (fun _ => none) (initPollState none false) false false
        .noChange).state.backoffMs = 1000 ∧
    (pollStepC (fun _ => none) (initPollState none false) false false
        .noChange).state.viewerLoading = false ∧
    ((pollStepC (fun _ => none) (initPollState none false) false false
        .noChange).events.map Prod.snd).countP PollEvent.isWaited = 0 ∧
    (pollStepC (fun _ => none) (initPollState none false) false false
        .noChange).again = true :=
  no_change_preserves_published_state (fun _ => none) none false []
    (initPollState none false) rfl rfl

/-- Counterexample to C2 as stated: after a transient failure has published
an error, a 204/no-change result leaves that error in place — it is not
cleared to null. -/
theorem no_change_error_not_cleared_counterexample :
    (pollStepC (fun _ => none)
        (pollRun (fun _ => none) (initPollState none false)
          [.failure (.api ⟨500, "request_failed", none, true⟩)]).1
        false false .noChange).state.viewerError =
      some (.api ⟨500, "request_failed", none, true⟩) := rfl

/-- C3: when the request of a running loop instance fails with status 401
(after any prefix of outcomes none of which is a 401), the loop performs
exactly one credential clear, leaving any store without `viewer_token` and
`agent_id`, stops, and issues no request for any later outcome: the request
count is the prefix length plus the one 401 request, whatever follows. -/
theorem unauthorized_single_clear_and_stop (dp : String → Option Int)
    (vs0 : Option ViewerStateResponse) (l0 : Bool)
    (pre post : List StreamOutcome) (e : CaughtError) (a : StorageArea)
    (hpre : ∀ o ∈ pre, o.isAuthFailure = false) (he : e.is401 = true) :
    (pollRun dp (initPollState vs0 l0) (pre ++ .failure e :: post)).2.countP
        PollEvent.isClearCred = 1 ∧
    (pollRun dp (initPollState vs0 l0) (pre ++ .failure e :: post)).2.countP
        PollEvent.isRequest = pre.length + 1 ∧
    (pollRun dp (initPollState vs0 l0) (pre ++ .failure e :: post)).1.stopped = true ∧
    (applyStorageEvents (pollRun dp (initPollState vs0 l0)
        (pre ++ .failure e :: post)).2 a).viewer_token = none ∧
    (applyStorageEvents (pollRun dp (initPollState vs0 l0)
        (pre ++ .failure e :: post)).2 a).agent_id = none := by
  have hs0 : (initPollState vs0 l0).stopped = false := rfl
  have hstop1 : (pollRun dp (initPollState vs0 l0) pre).1.stopped = false := by
    rw [run_stopped_no401 dp pre _ hpre]
    exact hs0
  have hdec := pollRun_append dp (initPollState vs0 l0) pre (.failure e :: post)
  have hcons := pollRun_cons_active dp (pollRun dp (initPollState vs0 l0) pre).1
    hstop1 (.failure e) post
  have hstepstop := stepC_state_401 dp (pollRun dp (initPollState vs0 l0) pre).1 e he
  have hpost := pollRun_stopped dp _ hstepstop post
  have hev := stepC_events_401 dp (pollRun dp (initPollState vs0 l0) pre).1 e he
  have hcounts := run_counts_no401 dp pre (initPollState vs0 l0) hpre hs0
  rw [hdec, hcons, hpost, hev]
  by_cases hi : (pollRun dp (initPollState vs0 l0) pre).1.initial <;>
  · simp only [hi, if_true, if_false, List.append_nil]
    refine ⟨?_, ?_, ?_, ?_, ?_⟩
    · simp [List.countP_append, hcounts.2, PollEvent.isClearCred]
    · simp [List.countP_append, hcounts.1, PollEvent.isRequest]
    · rw [hpost] at hcons
      exact hstepstop
    · rw [applyStorage_append]
      simp [applyStorageEvents, clearAuthModel]
    · rw [applyStorage_append]
      simp [applyStorageEvents, clearAuthModel]

/-- Witness for `unauthorized_single_clear_and_stop`: the very first request
fails 401; the loop clears once and stops although one more outcome is
queued behind it. -/
theorem unauthorized_single_clear_and_stop_witness :
    (pollRun (fun _ => none) (initPollState none false)
        ([] ++ .failure (.api ⟨401, "unauthorized", none, false⟩) :: [.noChange])).2.countP
        PollEvent.isClearCred = 1 ∧
    (pollRun (fun _ => none) (initPollState none false)
        ([] ++ .failure (.api ⟨401, "unauthorized", none, false⟩) :: [.noChange])).2.countP
        PollEvent.isRequest = 1 ∧
    (pollRun (fun _ => none) (initPollState none false)
        ([] ++ .failure (.api ⟨401, "unauthorized", none, false⟩) :: [.noChange])).1.stopped = true ∧
    (applyStorageEvents (pollRun (fun _ => none) (initPollState none false)
        ([] ++ .failure (.api ⟨401, "unauthorized", none, false⟩) :: [.noChange])).2
        ⟨some "tok-1", some "agent-1", none, some "USD"⟩).viewer_token = none ∧
    (applyStorageEvents (pollRun (fun _ => none) (initPollState none false)
        ([] ++ .failure (.api ⟨401, "unauthorized", none, false⟩) :: [.noChange])).2
        ⟨some "tok-1", some "agent-1", none, some "USD"⟩).agent_id = none :=
  unauthorized_single_clear_and_stop (fun _ => none) none false [] [.noChange]
    (.api ⟨401, "unauthorized", none, false⟩)
    ⟨some "tok-1", some "agent-1", none, some "USD"⟩ (by simp) rfl

/-- C4: once the instance cancellation flag is set, the superseded loop
publishes nothing further. If the flag is set while the request is in
flight, then — whether that request later resolves with a snapshot, a 204,
or rejects — the iteration emits only its pre-suspension events (the initial
loading flag and the request itself, both emitted while the flag was still
unset), performs no state mutation (`since`, snapshot, error, backoff,
stopped all unchanged) and exits the loop. If the flag is set during a
backoff sleep, the loop exits at the next check and every event of that
iteration was emitted while the flag was unset. -/
theorem cancelled_instance_publishes_nothing (dp : String → Option Int)
    (st : PollState) (o : StreamOutcome) (e : CaughtError) (cW : Bool)
    (he : e.is401 = false) :
    ((pollStepC dp st true cW o).events =
      (if st.initial then [(false, PollEvent.pubLoading true)] else []) ++
        [(false, PollEvent.request st.since)]) ∧
    (pollStepC dp st true cW o).again = false ∧
    (pollStepC dp st true cW o).state.since = st.since ∧
    (pollStepC dp st true cW o).state.viewerState = st.viewerState ∧
    (pollStepC dp st true cW o).state.viewerError = st.viewerError ∧
    (pollStepC dp st true cW o).state.backoffMs = st.backoffMs ∧
    (pollStepC dp st true cW o).state.stopped = st.stopped ∧
    ((pollStepC dp st false true (.failure e)).again = false ∧
      (pollStepC dp st false true (.failure e)).events.all
        (fun p => p.1 = false) = true) := by
  refine ⟨?_, ?_, ?_, ?_, ?_, ?_, ?_, ?_, ?_⟩
  all_goals first
    | (cases o with
        | snapshot v now => by_cases hi : st.initial <;> simp [pollStepC, hi]
        | noChange => by_cases hi : st.initial <;> simp [pollStepC, hi]
        | failure e2 => by_cases hi : st.initial <;> simp [pollStepC, hi])
    | (by_cases hi : st.initial <;> simp [pollStepC, hi, he])

/-- Witness for `cancelled_instance_publishes_nothing` at the fresh loop
state with a 204 resolving after cancellation. -/
theorem cancelled_instance_publishes_nothing_witness :
    ((pollStepC (fun _ => none) (initPollState none false) true false
        .noChange).events =
      (if (initPollState none false).initial then
        [(false, PollEvent.pubLoading true)] else []) ++
        [(false, PollEvent.request (initPollState none false).since)]) ∧
    (pollStepC (fun _ => none) (initPollState none false) true false
        .noChange).again = false ∧
    (pollStepC (fun _ => none) (initPollState none false) true false
        .noChange).state.since = (initPollState none false).since ∧
    (pollStepC (fun _ => none) (initPollState none false) true false
        .noChange).state.viewerState = (initPollState none false).viewerState ∧
    (pollStepC (fun _ => none) (initPollState none false) true false
        .noChange).state.viewerError = (initPollState none false).viewerError ∧
    (pollStepC (fun _ => none) (initPollState none false) true false
        .noChange).state.backoffMs = (initPollState none false).backoffMs ∧
    (pollStepC (fun _ => none) (initPollState none false) true false
        .noChange).state.stopped = (initPollState none false).stopped ∧
    ((pollStepC (fun _ => none) (initPollState none false) false true
        (.failure (.api ⟨500, "request_failed", none, true⟩))).again = false ∧
      (pollStepC (fun _ => none) (initPollState none false) false true
        (.failure (.api ⟨500, "request_failed", none, true⟩))).events.all
        (fun p => p.1 = false) = true) :=
  cancelled_instance_publishes_nothing (fun _ => none) (initPollState none false)
    .noChange (.api ⟨500, "request_failed", none, true⟩) false rfl

/-- C5: from a running state, a success (snapshot or 204) followed by a
non-401 failure waits exactly 1000ms (the success reset the backoff), and a
run of `n` consecutive non-401 failures starting at the 1000ms floor waits
1000, 2000, 4000, 8000, 8000, ... — doubling with an 8000ms ceiling. -/
theorem backoff_wait_sequence (dp : String → Option Int)
    (st su : PollState) (o : StreamOutcome) (e : CaughtError)
    (es : List CaughtError)
    (hstop : st.stopped = false) (hsucc : o.isSuccess = true) (he : e.is401 = false)
    (hstop2 : su.stopped = false) (hb : su.backoffMs = 1000)
    (hes : ∀ x ∈ es, x.is401 = false) :
    waitsOf (pollRun dp st [o, .failure e]).2 = [1000] ∧
    waitsOf (pollRun dp su (es.map .failure)).2 =
      (List.range es.length).map (fun i => min (1000 * 2 ^ i) 8000) := by
  constructor
  · rw [pollRun_cons_active dp st hstop]
    have h1 := stepC_success dp st o hsucc
    have hs1 : (pollStepC dp st false false o).state.stopped = false := by
      rw [h1.2.2]
      exact hstop
    rw [pollRun_cons_active dp _ hs1]
    have h2 := stepC_failure_non401 dp (pollStepC dp st false false o).state e he
    simp only [pollRun, waitsOf, List.filterMap_append, List.append_nil]
    have hw1 := h1.1
    have hw2 := h2.1
    simp only [waitsOf] at hw1 hw2
    rw [hw1, hw2, h1.2.1]
    rfl
  · rw [run_waits_failures dp es su hstop2 hes, hb]
    have h0 := expectedWaits_min_pow (List.length es) 0
    have h1000 : min (1000 * 2 ^ 0) 8000 = 1000 := by norm_num
    rw [h1000] at h0
    rw [h0]
    simp

/-- Witness for `backoff_wait_sequence`: a 204 then a 500 waits 1000ms; five
consecutive 503 failures wait 1000, 2000, 4000, 8000, 8000. -/
theorem backoff_wait_sequence_witness :
    waitsOf (pollRun (fun _ => none) (initPollState none false)
        [.noChange, .failure (.api ⟨500, "request_failed", none, true⟩)]).2 = [1000] ∧
    waitsOf (pollRun (fun _ => none) (initPollState none false)
        ((List.replicate 5 (CaughtError.api ⟨503, "request_failed", none, true⟩)).map
          .failure)).2 =
      (List.range (List.replicate 5
          (CaughtError.api ⟨503, "request_failed", none, true⟩)).length).map
        (fun i => min (1000 * 2 ^ i) 8000) :=
  backoff_wait_sequence (fun _ => none) (initPollState none false)
    (initPollState none false) .noChange
    (.api ⟨500, "request_failed", none, true⟩)
    (List.replicate 5 (CaughtError.api ⟨503, "request_failed", none, true⟩))
    rfl rfl rfl rfl rfl (by decide)

/-- C1 (amended): the watermark is written only by non-empty responses; after
the last non-empty response of a run (no 401 before it, nothing after it is
a snapshot) the `since` cursor equals
`maxIsoTimestamp(state_updated_at, last_seen_at)` of that response, falling
back to the receipt time when neither field parses. It is non-decreasing
provided the non-empty responses arrive with non-decreasing watermark
values (`Chain'` below): the code does not clamp against the previous
cursor, so monotonicity holds only under that arrival-order condition (see
the regression counterexample). -/
theorem watermark_latest_response_value (dp : String → Option Int)
    (vs0 : Option ViewerStateResponse) (l0 : Bool)
    (pre post : List StreamOutcome) (v : ViewerStateResponse) (now : String)
    (os1 os2 : List StreamOutcome) (ob : StreamOutcome) (a : Int)
    (hpreA : ∀ o ∈ pre, o.isAuthFailure = false)
    (hpostA : ∀ o ∈ post, o.isSnapshot = false)
    (hsuccB : ∀ o ∈ os1 ++ ob :: os2, o.isFailure = false)
    (hokB : ∀ o ∈ os1 ++ ob :: os2, o.isSnapshot = true → (snapVal dp o).isSome = true)
    (hchainB : List.Chain' (· ≤ ·) (outcomeVals dp (os1 ++ ob :: os2)))
    (ha : wmMs dp (pollRun dp (initPollState vs0 l0) os1).1 = some a) :
    (pollRun dp (initPollState vs0 l0) (pre ++ .snapshot v now :: post)).1.since =
      some ((maxIsoTimestamp dp v.state_updated_at v.last_seen_at).getD now) ∧
    ∃ b, wmMs dp (pollRun dp (initPollState vs0 l0) (os1 ++ [ob])).1 = some b ∧
      a ≤ b := by
  constructor
  · have hs0 : (initPollState vs0 l0).stopped = false := rfl
    have hstop1 : (pollRun dp (initPollState vs0 l0) pre).1.stopped = false := by
      rw [run_stopped_no401 dp pre _ hpreA]
      exact hs0
    rw [pollRun_append dp (initPollState vs0 l0) pre (.snapshot v now :: post)]
    rw [pollRun_cons_active dp _ hstop1 (.snapshot v now) post]
    rw [run_since_nonsnap dp post _ hpostA]
    exact stepC_since_snapshot dp _ v now
  · have hsucc1 : ∀ o ∈ os1, o.isFailure = false := fun o ho =>
      hsuccB o (List.mem_append_left _ ho)
    have hok1 : ∀ o ∈ os1, o.isSnapshot = true → (snapVal dp o).isSome = true :=
      fun o ho => hokB o (List.mem_append_left _ ho)
    have hstop1 : (pollRun dp (initPollState vs0 l0) os1).1.stopped = false := by
      rw [run_stopped_no401 dp os1 _
        (fun o ho => success_not_authFailure o (hsucc1 o ho))]
      rfl
    have hwm1 := run_success_wm dp os1 (initPollState vs0 l0) rfl hsucc1 hok1
    rw [pollRun_append dp (initPollState vs0 l0) os1 [ob]]
    cases ob with
    | snapshot v2 now2 =>
      obtain ⟨u, hu⟩ := Option.isSome_iff_exists.mp
        (hokB _ (List.mem_append_right _ (List.mem_cons_self _ _)) rfl)
      refine ⟨u, ?_, ?_⟩
      · rw [pollRun_cons_active dp _ hstop1 (.snapshot v2 now2) []]
        have : pollRun dp (pollStepC dp (pollRun dp (initPollState vs0 l0) os1).1
            false false (.snapshot v2 now2)).state [] = (_, []) := rfl
        rw [show (pollRun dp (pollStepC dp
            (pollRun dp (initPollState vs0 l0) os1).1
            false false (.snapshot v2 now2)).state []).1 =
          (pollStepC dp (pollRun dp (initPollState vs0 l0) os1).1
            false false (.snapshot v2 now2)).state from rfl]
        rw [stepC_wm_snapshot]
        exact hu
      · -- a is the last installed watermark value of os1; the chain across
        -- the split point bounds it by u.
        have hvals : outcomeVals dp (os1 ++ .snapshot v2 now2 :: os2) =
            outcomeVals dp os1 ++ u :: outcomeVals dp os2 := by
          simp [outcomeVals, List.filterMap_append, List.filterMap_cons, hu]
        rw [hvals] at hchainB
        have hbound := (List.chain'_append.mp hchainB).2.2
        have hlast : (outcomeVals dp os1).getLast? = some a := by
          rw [hwm1] at ha
          cases hgl : (outcomeVals dp os1).getLast? with
          | none =>
            rw [hgl] at ha
            simp [wmMs, initPollState, jsDateParseField, Option.or] at ha
          | some w =>
            rw [hgl] at ha
            simp [Option.or] at ha
            rw [ha]
        exact hbound a (by rw [hlast]; rfl) u (by rfl)
    | noChange =>
      refine ⟨a, ?_, le_refl a⟩
      rw [pollRun_cons_active dp _ hstop1 .noChange []]
      have hsince : (pollRun dp (pollStepC dp
          (pollRun dp (initPollState vs0 l0) os1).1 false false .noChange).state []).1 =
          (pollStepC dp (pollRun dp (initPollState vs0 l0) os1).1
            false false .noChange).state := rfl
      rw [hsince]
      unfold wmMs
      rw [stepC_since_nonsnap dp _ .noChange rfl]
      exact ha
    | failure e2 =>
      have := hsuccB _ (List.mem_append_right _ (List.mem_cons_self _ _))
      simp [StreamOutcome.isFailure] at this

/-- Witness for `watermark_latest_response_value`: a first snapshot stamped
2024-01-01 installs that watermark; a second stamped 2024-01-02 (arriving in
order) moves it forward. -/
theorem watermark_latest_response_value_witness :
    (pollRun isoParseMs (initPollState none false)
        ([] ++ .snapshot (snapAt "2024-01-01T00:00:00Z") "1970-01-01T00:00:00Z" :: [])).1.since =
      some ((maxIsoTimestamp isoParseMs
        (snapAt "2024-01-01T00:00:00Z").state_updated_at
        (snapAt "2024-01-01T00:00:00Z").last_seen_at).getD "1970-01-01T00:00:00Z") ∧
    ∃ b, wmMs isoParseMs (pollRun isoParseMs (initPollState none false)
        ([.snapshot (snapAt "2024-01-01T00:00:00Z") "1970-01-01T00:00:00Z"] ++
          [.snapshot (snapAt "2024-01-02T00:00:00Z") "1970-01-01T00:00:00Z"])).1 =
      some b ∧ (1704067200000 : Int) ≤ b :=
  watermark_latest_response_value isoParseMs none false
    [] [] (snapAt "2024-01-01T00:00:00Z") "1970-01-01T00:00:00Z"
    [.snapshot (snapAt "2024-01-01T00:00:00Z") "1970-01-01T00:00:00Z"] []
    (.snapshot (snapAt "2024-01-02T00:00:00Z") "1970-01-01T00:00:00Z")
    1704067200000
    (by simp) (by simp) (by decide) (by decide)
    (by
      show List.Chain' (· ≤ ·) [(1704067200000 : Int), 1704153600000]
      refine List.chain'_cons.mpr ⟨by norm_num, List.chain'_singleton _⟩)
    (by decide)

/-- Counterexample to C1 as stated: the code does not clamp the watermark.
Two successful non-empty responses arriving out of order (stamped
2024-01-02 then 2024-01-01) leave the watermark at the earlier timestamp:
it regressed from 1704153600000ms to 1704067200000ms. -/
theorem watermark_regression_counterexample :
    (pollRun isoParseMs (initPollState none false)
        [.snapshot (snapAt "2024-01-02T00:00:00Z") "1970-01-01T00:00:00Z"]).1.since =
      some "2024-01-02T00:00:00Z" ∧
    (pollRun isoParseMs (initPollState none false)
        [.snapshot (snapAt "2024-01-02T00:00:00Z") "1970-01-01T00:00:00Z",
          .snapshot (snapAt "2024-01-01T00:00:00Z") "1970-01-01T00:00:00Z"]).1.since =
      some "2024-01-01T00:00:00Z" ∧
    isoParseMs "2024-01-02T00:00:00Z" = some 1704153600000 ∧
    isoParseMs "2024-01-01T00:00:00Z" = some 1704067200000 ∧
    (1704067200000 : Int) < 1704153600000 := by
  refine ⟨rfl, rfl, rfl, rfl, by decide⟩

/-- C7: for every positive `waitTimeoutMs` passed to `fetchViewerStateStream`,
the server wait is requested via the `timeout_ms` query parameter and the
client-side request timeout is that wait plus the fixed 2000ms
`STREAM_TIMEOUT_BUFFER_MS`, hence strictly larger than the server wait: an
empty long-poll running the full server wait cannot trip the client timeout. -/
theorem stream_client_timeout_buffer (sinceIso : Option String) (n : Nat)
    (h : 0 < n) :
    STREAM_TIMEOUT_BUFFER_MS = 2000 ∧
    (streamRequestOf sinceIso (some n)).timeoutParam = some n ∧
    (streamRequestOf sinceIso (some n)).requestTimeoutMs = n + STREAM_TIMEOUT_BUFFER_MS ∧
    n < (streamRequestOf sinceIso (some n)).requestTimeoutMs := by
  have hn : n ≠ 0 := Nat.pos_iff_ne_zero.mp h
  refine ⟨rfl, ?_, ?_, ?_⟩ <;>
    simp [streamRequestOf, hn, STREAM_TIMEOUT_BUFFER_MS]

/-- Witness for `stream_client_timeout_buffer` at the wait budget the side
panel actually passes (8000ms). -/
theorem stream_client_timeout_buffer_witness :
    STREAM_TIMEOUT_BUFFER_MS = 2000 ∧
    (streamRequestOf none (some 8000)).timeoutParam = some 8000 ∧
    (streamRequestOf none (some 8000)).requestTimeoutMs = 8000 + STREAM_TIMEOUT_BUFFER_MS ∧
    8000 < (streamRequestOf none (some 8000)).requestTimeoutMs :=
  stream_client_timeout_buffer none 8000 (by decide)

/-- C8: `pair` returns a value for every pairing-code request outcome and
never throws: a fetch rejection (network failure or timeout) and an
unparseable body yield `failure "network_error"`; a parsed body that is not a
2xx success yields the server-provided `error` code when the body carries
one and `"network_error"` otherwise; a 2xx response with an `ok` body yields
the credential fields. Totality is by type: `pairModel` lands in
`PairResult`, there is no thrown-error channel. -/
theorem pair_result_total_classified (s : Nat) (b : PairBody) :
    pairModel .reject = .failure "network_error" ∧
    pairModel (.response s none) = .failure "network_error" ∧
    pairModel (.response s (some b)) =
      (if respOk s && b.okField then
        .success b.agent_id b.viewer_token b.expires_at
      else .failure (b.errorField.getD "network_error")) := by
  refine ⟨rfl, rfl, ?_⟩
  cases hro : respOk s <;> cases hok : b.okField <;> simp [pairModel, hro, hok]

/-- C9: the credential store never exposes a partial credential: `getAuth`
resolves `null` exactly when `viewer_token` or `agent_id` is missing or
empty, otherwise it returns both (non-empty) fields as persisted; it never
throws (`getAuthModel` is a total function); and `setAuth` writes
`viewer_token` and `agent_id` together in its single storage write. -/
theorem auth_store_no_partial_credential (a : StorageArea) (auth c : AuthState) :
    (getAuthModel a = none ↔
      (a.viewer_token = none ∨ a.viewer_token = some "" ∨
        a.agent_id = none ∨ a.agent_id = some "")) ∧
    (getAuthModel a = some c →
      a.viewer_token = some c.viewer_token ∧ a.agent_id = some c.agent_id ∧
        c.viewer_token ≠ "" ∧ c.agent_id ≠ "") ∧
    ((setAuthModel auth a).viewer_token = some auth.viewer_token ∧
      (setAuthModel auth a).agent_id = some auth.agent_id ∧
      (setAuthModel auth a).expires_at = auth.expires_at) := by
  obtain ⟨avt, aaid, aex, apc⟩ := a
  refine ⟨?_, ?_, rfl, rfl, rfl⟩
  · cases avt with
    | none => simp [getAuthModel]
    | some vt =>
      cases aaid with
      | none => simp [getAuthModel]
      | some aid =>
        by_cases h1 : vt = "" <;> by_cases h2 : aid = "" <;>
          simp [getAuthModel, h1, h2, String.isEmpty_iff]
  · intro hsome
    cases avt with
    | none => simp [getAuthModel] at hsome
    | some vt =>
      cases aaid with
      | none => simp [getAuthModel] at hsome
      | some aid =>
        by_cases h1 : vt = "" <;> by_cases h2 : aid = "" <;>
          simp [getAuthModel, h1, h2, String.isEmpty_iff] at hsome
        subst hsome
        simp [h1, h2]

/-- Witness for `auth_store_no_partial_credential`: a store holding both
fields yields exactly that credential. -/
theorem auth_store_no_partial_credential_witness :
    (⟨some "tok-1", some "agent-1", none, none⟩ : StorageArea).viewer_token =
        some (⟨"tok-1", "agent-1", none⟩ : AuthState).viewer_token ∧
      (⟨some "tok-1", some "agent-1", none, none⟩ : StorageArea).agent_id =
        some (⟨"tok-1", "agent-1", none⟩ : AuthState).agent_id :=
  ⟨((auth_store_no_partial_credential ⟨some "tok-1", some "agent-1", none, none⟩
      ⟨"tok-1", "agent-1", none⟩ ⟨"tok-1", "agent-1", none⟩).2.1 (by decide)).1,
    ((auth_store_no_partial_credential ⟨some "tok-1", some "agent-1", none, none⟩
      ⟨"tok-1", "agent-1", none⟩ ⟨"tok-1", "agent-1", none⟩).2.1 (by decide)).2.1⟩

/-- C10: `parseRetryAfterMs` returns `none` (header absent, blank, or
unparseable as both delta-seconds and HTTP-date) or a non-negative
millisecond delay; negative delta-seconds (e.g. `"-5"`) and HTTP-dates lying
at or before `Date.now()` are clamped to `0`. -/
theorem retry_after_clamped_nonnegative (dp : String → Option Int) (now : Int)
    (h : Option String) (s : String) (t : Int) :
    (parseRetryAfterMs dp now h = none ∨
      ∃ m, parseRetryAfterMs dp now h = some m ∧ 0 ≤ m) ∧
    parseRetryAfterMs dp now (some "-5") = some 0 ∧
    (jsParseIntDec (jsTrim s) = none → dp (jsTrim s) = some t → t ≤ now →
      (jsTrim s).isEmpty = false → parseRetryAfterMs dp now (some s) = some 0) := by
  refine ⟨?_, rfl, ?_⟩
  · cases h with
    | none => exact Or.inl rfl
    | some v =>
      by_cases hv : v.isEmpty
      · exact Or.inl (by simp [parseRetryAfterMs, hv])
      · by_cases ht : (jsTrim v).isEmpty
        · exact Or.inl (by simp [parseRetryAfterMs, hv, ht])
        · cases hint : jsParseIntDec (jsTrim v) with
          | some seconds =>
            refine Or.inr ⟨max 0 seconds * 1000, by simp [parseRetryAfterMs, hv, ht, hint], ?_⟩
            exact mul_nonneg (le_max_left 0 seconds) (by norm_num)
          | none =>
            cases hdate : dp (jsTrim v) with
            | some dateMs =>
              exact Or.inr ⟨max 0 (dateMs - now),
                by simp [parseRetryAfterMs, hv, ht, hint, hdate], le_max_left 0 _⟩
            | none => exact Or.inl (by simp [parseRetryAfterMs, hv, ht, hint, hdate])
  · intro h1 h2 h3 h4
    have hs : s.isEmpty = false := by
      cases hse : s.isEmpty
      · rfl
      · have hseq : s = "" := (String.isEmpty_iff s).mp hse
        subst hseq
        exact absurd h4 (by decide)
    have hmax : max 0 (t - now) = 0 := by omega
    simp [parseRetryAfterMs, hs, h4, h1, h2, hmax]

/-- C6: every failure raised by the state-fetch functions
(`fetchViewerState` and `fetchViewerStateStream`) is classified: a fetch
rejection carries status 0 (message `"timeout"` when aborted by the client
deadline, `"network_error"` otherwise) and is transient; an HTTP-response
failure carries the response status, is transient exactly for 429 and 5xx,
and carries `retryAfterMs` parsed from the `retry-after` header — which
accepts delta-seconds (`"2"` gives 2000ms) and, via `Date.parse`, HTTP-date
values. -/
theorem state_fetch_error_classification (dp : String → Option Int) (now : Int)
    (o : FetchOutcome) (e : ApiError)
    (herr : fetchViewerStateModel dp now o = .error e ∨
      fetchViewerStateStreamModel dp now o = .error e) :
    (∀ ab, o = .reject ab →
      e.status = 0 ∧ e.isTransient = true ∧ e.retryAfterMs = none ∧
        e.message = (if ab then "timeout" else "network_error")) ∧
    (∀ s b hdr, o = .response s b hdr →
      e.status = s ∧ (e.isTransient = true ↔ (s = 429 ∨ 500 ≤ s)) ∧
        e.retryAfterMs = parseRetryAfterMs dp now hdr) ∧
    (∀ now2 : Int, parseRetryAfterMs dp now2 (some "2") = some 2000) ∧
    (∀ (s : String) (t : Int), jsParseIntDec (jsTrim s) = none →
      dp (jsTrim s) = some t → (jsTrim s).isEmpty = false →
      parseRetryAfterMs dp now (some s) = some (max 0 (t - now))) := by
  refine ⟨?_, ?_, fun now2 => rfl, ?_⟩
  · rintro ab rfl
    rcases herr with h | h <;>
    · simp only [fetchViewerStateModel, fetchViewerStateStreamModel,
        Except.error.injEq] at h
      subst h
      exact ⟨rfl, rfl, rfl, rfl⟩
  · rintro s b hdr rfl
    have key : e.status = s ∧ e.isTransient = isTransientStatus s ∧
        e.retryAfterMs = parseRetryAfterMs dp now hdr := by
      rcases herr with h | h
      · cases b with
        | none =>
          simp only [fetchViewerStateModel, Except.error.injEq] at h
          subst h
          exact ⟨rfl, rfl, rfl⟩
        | some bb =>
          by_cases hc : (!respOk s || bb.okField == some false) = true
          · simp only [fetchViewerStateModel, hc, if_true, Except.error.injEq] at h
            subst h
            exact ⟨rfl, rfl, rfl⟩
          · simp only [fetchViewerStateModel, hc, if_false] at h
            cases h
      · by_cases h204 : s = 204
        · simp [fetchViewerStateStreamModel, h204] at h
        · cases b with
          | none =>
            simp only [fetchViewerStateStreamModel, h204, if_neg,
              Except.error.injEq, if_false] at h
            subst h
            exact ⟨rfl, rfl, rfl⟩
          | some bb =>
            by_cases hc : (!respOk s || bb.okField == some false) = true
            · simp only [fetchViewerStateStreamModel, h204, hc, if_true,
                if_false, Except.error.injEq] at h
              subst h
              exact ⟨rfl, rfl, rfl⟩
            · simp only [fetchViewerStateStreamModel, h204, hc, if_false] at h
              cases h
    refine ⟨key.1, ?_, key.2.2⟩
    rw [key.2.1]
    simp [isTransientStatus]
  · intro s t h1 h2 h3
    have hs : s.isEmpty = false := by
      cases hse : s.isEmpty
      · rfl
      · have hseq : s = "" := (String.isEmpty_iff s).mp hse
        subst hseq
        exact absurd h3 (by decide)
    simp [parseRetryAfterMs, hs, h3, h1, h2]

/-- Witness for `state_fetch_error_classification`: a 429 stream response
with `retry-after: 2` and no parseable body yields an error with status 429,
transient, and a 2000ms retry hint. -/
theorem state_fetch_error_classification_witness :
    (⟨429, "request_failed", some 2000, true⟩ : ApiError).status = 429 ∧
    (⟨429, "request_failed", some 2000, true⟩ : ApiError).isTransient = true ∧
    (⟨429, "request_failed", some 2000, true⟩ : ApiError).retryAfterMs =
      parseRetryAfterMs (fun _ => none) 0 (some "2") := by
  have h := (state_fetch_error_classification (fun _ => none) 0
      (.response 429 none (some "2")) ⟨429, "request_failed", some 2000, true⟩
      (Or.inr rfl)).2.1 429 none (some "2") rfl
  exact ⟨h.1, h.2.1.mpr (Or.inl rfl), h.2.2⟩

/-- Witness for `retry_after_clamped_nonnegative`: a header parsing (under a
`Date.parse` oracle) to a date 5ms after the epoch, with the clock at 10ms,
is clamped to a zero delay. -/
theorem retry_after_clamped_nonnegative_witness :
    parseRetryAfterMs (fun x => if x = "Mon" then some (5 : Int) else none) 10
      (some "Mon") = some 0 :=
  (retry_after_clamped_nonnegative
      (fun x => if x = "Mon" then some (5 : Int) else none) 10 none "Mon" 5).2.2
    (by decide) (by decide) (by decide) (by decide)

end LaserSell
